import Mathlib

/-!
Verification of the rust-lifx protocol codec and client session layer.

Shallow embedding conventions:
- a wire byte is a `Nat` (kept below 256 by every encoder);
- multi-byte integers are little-endian, mirroring the byteorder-based
  serializer in src/serialize.rs;
- the rustc-serialize cursor Decoder is modelled by the state-passing reader
  `Rd`, with `Except String` carrying decode failures exactly where the Rust
  code returns `Err`;
- an f32 field is modelled by the `Nat` holding its 4-byte little-endian
  IEEE-754 bit pattern (the serializer writes and reads the raw bits);
- a Rust `String` field is modelled by the list of its UTF-8 bytes, since
  both the encoder (emit_str) and the decoder (decode_32_byte_str /
  from_utf8_unchecked) operate on the raw bytes.
-/

set_option maxRecDepth 8000

namespace Lifx

abbrev Bytes := List Nat

/-- Little-endian encoding of a u8 (serialize.rs emit_u8). -/
def u8le (v : Nat) : Bytes := [v % 256]

/-- Little-endian encoding of a u16 (serialize.rs emit_u16). -/
def u16le (v : Nat) : Bytes := [v % 256, v / 256 % 256]

/-- Little-endian encoding of a u32 (serialize.rs emit_u32). -/
def u32le (v : Nat) : Bytes :=
  [v % 256, v / 256 % 256, v / 65536 % 256, v / 16777216 % 256]

/-- Little-endian encoding of a u64 (serialize.rs emit_u64). -/
def u64le (v : Nat) : Bytes :=
  [v % 256, v / 256 % 256, v / 65536 % 256, v / 16777216 % 256,
   v / 4294967296 % 256, v / 1099511627776 % 256,
   v / 281474976710656 % 256, v / 72057594037927936 % 256]

/-- Value of a little-endian byte list. -/
def leVal : Bytes → Nat
  | [] => 0
  | b :: t => b + 256 * leVal t

/-- The cursor-based decoder of serialize.rs: reads from the front of the
byte list, fails with the error strings the ByteDecoder produces. -/
def Rd (α : Type) : Type := Bytes → Except String (α × Bytes)

def Rd.pureImpl (a : α) : Rd α := fun l => .ok (a, l)

def Rd.bindImpl (m : Rd α) (f : α → Rd β) : Rd β := fun l =>
  match m l with
  | .ok (a, rest) => f a rest
  | .error e => .error e

instance : Monad Rd where
  pure := Rd.pureImpl
  bind := Rd.bindImpl

/-- Reads n raw bytes from the front of the input, failing like a chain of
read_u8 calls when the input is exhausted. -/
def readN : Nat → Bytes → Except String (Bytes × Bytes)
  | 0, l => .ok ([], l)
  | _ + 1, [] => .error "read u8 failed"
  | n + 1, b :: r =>
    match readN n r with
    | .ok (s, rest) => .ok (b :: s, rest)
    | .error e => .error e

/-- read_u8 of the ByteDecoder. -/
def readU8 : Rd Nat := fun l =>
  match l with
  | [] => .error "read u8 failed"
  | b :: r => .ok (b, r)

/-- Fixed-width little-endian integer read with the error message of the
corresponding ByteDecoder method. -/
def readWidth (n : Nat) (msg : String) : Rd Nat := fun l =>
  match readN n l with
  | .ok (s, r) => .ok (leVal s, r)
  | .error _ => .error msg

/-- read_u16 of the ByteDecoder. -/
def readU16 : Rd Nat := readWidth 2 "read u16 failed"

/-- read_u32 of the ByteDecoder. -/
def readU32 : Rd Nat := readWidth 4 "read u32 failed"

/-- read_u64 of the ByteDecoder. -/
def readU64 : Rd Nat := readWidth 8 "read u64 failed"

/-- read_i16 of the ByteDecoder: consumes two bytes; every caller in
payload.rs discards the value, so the unsigned bit value is returned. -/
def readI16 : Rd Nat := readWidth 2 "read i16 failed"

/-- read_f32 of the ByteDecoder: the 4-byte little-endian bit pattern. -/
def readF32 : Rd Nat := readWidth 4 "read f32 failed"

/-- Consumes n bytes whose value is discarded (the read_u8 loop over the
reserved header bytes). -/
def skipBytes (n : Nat) : Rd Unit := fun l =>
  match readN n l with
  | .ok (_, r) => .ok ((), r)
  | .error e => .error e

/-- Fuel-bounded worker for decode_32_byte_str (payload.rs): reads up to
32 bytes, stopping at (and consuming) the first zero byte. -/
def str32Aux : Nat → Bytes → Except String (Bytes × Bytes)
  | 0, input => .ok ([], input)
  | _ + 1, [] => .error "read u8 failed"
  | n + 1, b :: rest =>
    if b = 0 then .ok ([], rest)
    else
      match str32Aux n rest with
      | .ok (s, r) => .ok (b :: s, r)
      | .error e => .error e

/-- decode_32_byte_str of payload.rs. -/
def readStr32 : Rd Bytes := fun l => str32Aux 32 l

/-- decode_16_byte_arr of payload.rs. -/
def read16Arr : Rd Bytes := fun l => readN 16 l

/-- decode_64_byte_arr of payload.rs. -/
def read64Arr : Rd Bytes := fun l => readN 64 l

/-- Service enumeration (payload.rs). -/
inductive Service
  | Udp
  | Reserved
deriving DecidableEq

/-- Into u8 for Service. -/
def Service.toU8 : Service → Nat
  | .Udp => 1
  | .Reserved => 5

/-- From u8 for Service: any byte other than 1 decodes as Reserved. -/
def Service.fromU8 (b : Nat) : Service :=
  if b = 1 then .Udp else .Reserved

/-- Power level enumeration (payload.rs). -/
inductive Power
  | Standby
  | Max
deriving DecidableEq

/-- Into u16 for Power. -/
def Power.toU16 : Power → Nat
  | .Standby => 0
  | .Max => 65535

/-- From u16 for Power: any nonzero value decodes as Max. -/
def Power.fromU16 (v : Nat) : Power :=
  if v = 0 then .Standby else .Max

/-- HSBK color value (payload.rs); each field is a u16. -/
structure HSBK where
  hue : Nat
  saturation : Nat
  brightness : Nat
  kelvin : Nat
deriving DecidableEq

/-- HSBK::new (payload.rs): asserts 2500 <= kelvin <= 9000; the assertion
failure (a panic) is modelled by none. -/
def HSBK.new (h s b k : Nat) : Option HSBK :=
  if 2500 ≤ k ∧ k ≤ 9000 then some ⟨h, s, b, k⟩ else none

def MAX_SATURATION : Nat := 65535

def DEFAULT_KELVIN : Nat := 3500

/-- Preseeded Color values (payload.rs). -/
inductive Color
  | Red
  | Blue
  | Green
  | Violet
  | Yellow
  | White
deriving DecidableEq

/-- Color::to_hsbk (payload.rs), field for field. -/
def Color.to_hsbk : Color → Nat → HSBK
  | .Red, brightness => ⟨0, MAX_SATURATION, brightness, DEFAULT_KELVIN⟩
  | .Blue, brightness => ⟨0, 0, brightness, 0⟩
  | .Green, brightness => ⟨120, MAX_SATURATION, brightness, DEFAULT_KELVIN⟩
  | .Violet, brightness => ⟨0, 0, brightness, 0⟩
  | .Yellow, brightness => ⟨0, 0, brightness, 0⟩
  | .White, brightness => ⟨0, 0, brightness, 0⟩

/-- Device message variants (payload.rs). String labels are lists of UTF-8
bytes; the f32 signal fields hold the 4-byte bit pattern; 16 and 64 byte
arrays are byte lists whose length is fixed by the well-formedness
predicate further down. -/
inductive Device
  | GetService
  | StateService (service : Service) (port : Nat)
  | GetHostInfo
  | StateHostInfo (signal tx rx : Nat)
  | GetHostFirmware
  | StateHostFirmware (build version : Nat)
  | GetWifiInfo
  | StateWifiInfo (signal tx rx : Nat)
  | GetWifiFirmware
  | StateWifiFirmware (build version : Nat)
  | GetPower
  | SetPower (level : Power)
  | StatePower (level : Power)
  | GetLabel
  | StateLabel (label : Bytes)
  | GetVersion
  | StateVersion (vendor product version : Nat)
  | GetInfo
  | StateInfo (time uptime downtime : Nat)
  | Acknowledgement
  | GetLocation
  | StateLocation (location : Bytes) (label : Bytes) (updated : Nat)
  | GetGroup
  | StateGroup (group : Bytes) (label : Bytes) (updated : Nat)
  | EchoRequest (payload : Bytes)
  | EchoResponse (payload : Bytes)
deriving DecidableEq

/-- Light message variants (payload.rs). -/
inductive Light
  | Get
  | SetColor (color : HSBK) (duration : Nat)
  | State (color : HSBK) (power : Nat) (label : Bytes)
  | GetPower
  | SetPower (level : Power) (duration : Nat)
  | StatePower (level : Power)
deriving DecidableEq

/-- Payload union (payload.rs). -/
inductive Payload
  | Device (d : Device)
  | Light (l : Light)
deriving DecidableEq

/-- Device::typ (payload.rs). -/
def Device.typ : Device → Nat
  | .GetService => 2
  | .StateService _ _ => 3
  | .GetHostInfo => 12
  | .StateHostInfo _ _ _ => 13
  | .GetHostFirmware => 14
  | .StateHostFirmware _ _ => 15
  | .GetWifiInfo => 16
  | .StateWifiInfo _ _ _ => 17
  | .GetWifiFirmware => 18
  | .StateWifiFirmware _ _ => 19
  | .GetPower => 20
  | .SetPower _ => 21
  | .StatePower _ => 22
  | .GetLabel => 23
  | .StateLabel _ => 25
  | .GetVersion => 32
  | .StateVersion _ _ _ => 33
  | .GetInfo => 34
  | .StateInfo _ _ _ => 35
  | .Acknowledgement => 45
  | .GetLocation => 48
  | .StateLocation _ _ _ => 50
  | .GetGroup => 51
  | .StateGroup _ _ _ => 53
  | .EchoRequest _ => 58
  | .EchoResponse _ => 59

/-- Device::tagged (payload.rs): only GetService is tagged. -/
def Device.tagged : Device → Bool
  | .GetService => true
  | _ => false

/-- Device::requires_response (payload.rs), variant for variant. -/
def Device.requires_response : Device → Bool
  | .GetService => true
  | .GetHostInfo => true
  | .GetHostFirmware => true
  | .GetWifiInfo => true
  | .GetWifiFirmware => true
  | .GetPower => true
  | .SetPower _ => true
  | .GetLabel => true
  | .GetVersion => true
  | .GetInfo => true
  | .GetLocation => true
  | .GetGroup => true
  | .EchoRequest _ => true
  | _ => false

/-- Device::size (payload.rs). -/
def Device.size : Device → Nat
  | .GetService => 0
  | .GetHostInfo => 0
  | .GetHostFirmware => 0
  | .GetWifiInfo => 0
  | .GetWifiFirmware => 0
  | .GetPower => 0
  | .GetLabel => 0
  | .GetVersion => 0
  | .GetInfo => 0
  | .Acknowledgement => 0
  | .GetLocation => 0
  | .GetGroup => 0
  | .SetPower _ => 2
  | .StatePower _ => 2
  | .StateService _ _ => 5
  | .StateVersion _ _ _ => 12
  | .StateHostInfo _ _ _ => 14
  | .StateWifiInfo _ _ _ => 14
  | .StateHostFirmware _ _ => 20
  | .StateWifiFirmware _ _ => 20
  | .StateInfo _ _ _ => 24
  | .StateLabel _ => 32
  | .StateLocation _ _ _ => 56
  | .StateGroup _ _ _ => 56
  | .EchoRequest _ => 64
  | .EchoResponse _ => 64

/-- Light::typ (payload.rs). -/
def Light.typ : Light → Nat
  | .Get => 101
  | .SetColor _ _ => 102
  | .State _ _ _ => 107
  | .GetPower => 116
  | .SetPower _ _ => 117
  | .StatePower _ => 118

/-- Light::tagged (payload.rs). -/
def Light.tagged : Light → Bool := fun _ => false

/-- Light::requires_response (payload.rs). -/
def Light.requires_response : Light → Bool
  | .Get => true
  | .GetPower => true
  | .SetPower _ _ => true
  | .SetColor _ _ => true
  | _ => false

/-- Light::size (payload.rs). -/
def Light.size : Light → Nat
  | .Get => 0
  | .GetPower => 0
  | .StatePower _ => 2
  | .SetPower _ _ => 6
  | .SetColor _ _ => 13
  | .State _ _ _ => 24

/-- Payload::typ (payload.rs). -/
def Payload.typ : Payload → Nat
  | .Device d => d.typ
  | .Light l => l.typ

/-- Payload::tagged (payload.rs). -/
def Payload.tagged : Payload → Bool
  | .Device d => d.tagged
  | .Light l => l.tagged

/-- Payload::size (payload.rs). -/
def Payload.size : Payload → Nat
  | .Device d => d.size
  | .Light l => l.size

/-- Payload::requires_response (payload.rs). -/
def Payload.requires_response : Payload → Bool
  | .Device d => d.requires_response
  | .Light l => l.requires_response

/-- Byte encoding of an HSBK value under the ByteEncoder: the derived
RustcEncodable impl emits the four u16 fields in declaration order. -/
def hsbkle (c : HSBK) : Bytes :=
  u16le c.hue ++ u16le c.saturation ++ u16le c.brightness ++ u16le c.kelvin

/-- Byte encoding of a Device message under the ByteEncoder: the derived
RustcEncodable impl emits the fields of the variant back to back (the
ByteEncoder ignores enum variant tags and sequence framing); Service and
Power use their manual Encodable impls (one u8 id and one u16 level); a
String emits its UTF-8 bytes followed by a single 0 terminator. -/
def encodeDevice : Device → Bytes
  | .GetService => []
  | .StateService s port => u8le s.toU8 ++ u32le port
  | .GetHostInfo => []
  | .StateHostInfo signal tx rx => u32le signal ++ u32le tx ++ u32le rx
  | .GetHostFirmware => []
  | .StateHostFirmware build version => u64le build ++ u32le version
  | .GetWifiInfo => []
  | .StateWifiInfo signal tx rx => u32le signal ++ u32le tx ++ u32le rx
  | .GetWifiFirmware => []
  | .StateWifiFirmware build version => u64le build ++ u32le version
  | .GetPower => []
  | .SetPower p => u16le p.toU16
  | .StatePower p => u16le p.toU16
  | .GetLabel => []
  | .StateLabel label => label ++ [0]
  | .GetVersion => []
  | .StateVersion vendor product version =>
      u32le vendor ++ u32le product ++ u32le version
  | .GetInfo => []
  | .StateInfo time uptime downtime =>
      u64le time ++ u64le uptime ++ u64le downtime
  | .Acknowledgement => []
  | .GetLocation => []
  | .StateLocation location label updated =>
      location ++ (label ++ [0]) ++ u64le updated
  | .GetGroup => []
  | .StateGroup group label updated =>
      group ++ (label ++ [0]) ++ u64le updated
  | .EchoRequest d => d
  | .EchoResponse d => d

/-- Byte encoding of a Light message under the ByteEncoder, following the
manual Encodable impl in payload.rs (SetColor emits a reserved leading u8 0;
State emits a reserved u16 0 between color and power and a trailing u64 0). -/
def encodeLight : Light → Bytes
  | .Get => []
  | .SetColor color duration => u8le 0 ++ hsbkle color ++ u32le duration
  | .State color power label =>
      hsbkle color ++ u16le 0 ++ u16le power ++ (label ++ [0]) ++ u64le 0
  | .GetPower => []
  | .SetPower level duration => u16le level.toU16 ++ u32le duration
  | .StatePower level => u16le level.toU16

/-- Byte encoding of a Payload under the ByteEncoder: the derived impl for
the top-level union emits no tag of its own. -/
def encodePayload : Payload → Bytes
  | .Device d => encodeDevice d
  | .Light l => encodeLight l

/-- Derived RustcDecodable impl for HSBK: four u16 reads in field order. -/
def HSBK.decodeR : Rd HSBK := do
  let h ← readU16
  let s ← readU16
  let b ← readU16
  let k ← readU16
  pure ⟨h, s, b, k⟩

/-- Payload::decode (payload.rs): dispatch on the externally supplied type
tag; any tag outside the catalog fails with the unrecognized-message error. -/
def Payload.decode (tag : Nat) : Rd Payload :=
  if tag = 2 then pure (.Device .GetService)
  else if tag = 3 then do
    let b ← readU8
    let port ← readU32
    pure (.Device (.StateService (Service.fromU8 b) port))
  else if tag = 12 then pure (.Device .GetHostInfo)
  else if tag = 13 then do
    let signal ← readF32
    let tx ← readU32
    let rx ← readU32
    let _ ← readI16
    pure (.Device (.StateHostInfo signal tx rx))
  else if tag = 14 then pure (.Device .GetHostFirmware)
  else if tag = 15 then do
    let build ← readU64
    let _ ← readU64
    let version ← readU32
    pure (.Device (.StateHostFirmware build version))
  else if tag = 16 then pure (.Device .GetWifiInfo)
  else if tag = 17 then do
    let signal ← readF32
    let tx ← readU32
    let rx ← readU32
    let _ ← readI16
    pure (.Device (.StateWifiInfo signal tx rx))
  else if tag = 18 then pure (.Device .GetWifiFirmware)
  else if tag = 19 then do
    let build ← readU64
    let _ ← readU64
    let version ← readU32
    pure (.Device (.StateWifiFirmware build version))
  else if tag = 20 then pure (.Device .GetPower)
  else if tag = 21 then do
    let v ← readU16
    pure (.Device (.SetPower (Power.fromU16 v)))
  else if tag = 22 then do
    let v ← readU16
    pure (.Device (.StatePower (Power.fromU16 v)))
  else if tag = 23 then pure (.Device .GetLabel)
  else if tag = 25 then do
    let label ← readStr32
    pure (.Device (.StateLabel label))
  else if tag = 32 then pure (.Device .GetVersion)
  else if tag = 33 then do
    let vendor ← readU32
    let product ← readU32
    let version ← readU32
    pure (.Device (.StateVersion vendor product version))
  else if tag = 34 then pure (.Device .GetInfo)
  else if tag = 35 then do
    let time ← readU64
    let uptime ← readU64
    let downtime ← readU64
    pure (.Device (.StateInfo time uptime downtime))
  else if tag = 45 then pure (.Device .Acknowledgement)
  else if tag = 48 then pure (.Device .GetLocation)
  else if tag = 50 then do
    let location ← read16Arr
    let label ← readStr32
    let updated ← readU64
    pure (.Device (.StateLocation location label updated))
  else if tag = 51 then pure (.Device .GetGroup)
  else if tag = 53 then do
    let group ← read16Arr
    let label ← readStr32
    let updated ← readU64
    pure (.Device (.StateGroup group label updated))
  else if tag = 58 then do
    let d ← read64Arr
    pure (.Device (.EchoRequest d))
  else if tag = 59 then do
    let d ← read64Arr
    pure (.Device (.EchoResponse d))
  else if tag = 101 then pure (.Light .Get)
  else if tag = 102 then do
    let _ ← readU8
    let color ← HSBK.decodeR
    let duration ← readU32
    pure (.Light (.SetColor color duration))
  else if tag = 107 then do
    let color ← HSBK.decodeR
    let _ ← readI16
    let power ← readU16
    let label ← readStr32
    let _ ← readU64
    pure (.Light (.State color power label))
  else if tag = 116 then pure (.Light .GetPower)
  else if tag = 117 then do
    let level ← readU16
    let duration ← readU32
    pure (.Light (.SetPower (Power.fromU16 level) duration))
  else if tag = 118 then do
    let v ← readU16
    pure (.Light (.StatePower (Power.fromU16 v)))
  else fun _ => .error "unrecognized message"

/-- The type tags Payload::decode recognizes. -/
def knownTags : List Nat :=
  [2, 3, 12, 13, 14, 15, 16, 17, 18, 19, 20, 21, 22, 23, 25,
   32, 33, 34, 35, 45, 48, 50, 51, 53, 58, 59,
   101, 102, 107, 116, 117, 118]

/-- The 36-byte header (header.rs). All integer fields are Nats bounded by
their Rust widths in the theorems that need bounds. -/
structure Header where
  size : Nat
  origin : Nat
  tagged : Bool
  addressable : Bool
  protocol : Nat
  source : Nat
  target : Nat
  ack_required : Bool
  res_required : Bool
  sequence : Nat
  typ : Nat
deriving DecidableEq

/-- Header::new (header.rs): origin 0, addressable true, protocol 1024. -/
def Header.new (size : Nat) (tagged : Bool) (source target : Nat)
    (ack_required res_required : Bool) (sequence typ : Nat) : Header :=
  { size := size
    origin := 0
    tagged := tagged
    addressable := true
    protocol := 1024
    source := source
    target := target
    ack_required := ack_required
    res_required := res_required
    sequence := sequence
    typ := typ }

/-- Header::mem_size (header.rs). -/
def Header.mem_size : Nat := 36

/-- The bit-packed 16-bit word at byte offset 2 as the encoder builds it:
value starts from origin, the tagged bit 13 and the addressable bit 12 are
ORed in, and the result is ORed onto protocol. Note the encoder does not
shift origin up to bits 14-15. -/
def encWord2 (h : Header) : Nat :=
  let v := h.origin
  let v := if h.tagged then v ||| 8192 else v
  let v := if h.addressable then v ||| 4096 else v
  h.protocol ||| v

/-- The ack/res flag byte at offset 22 as the encoder builds it. -/
def ackResByte (h : Header) : Nat :=
  let v := 0
  let v := if h.ack_required then v ||| 2 else v
  if h.res_required then v ||| 1 else v

/-- Header encode (header.rs Encodable impl): the 36-byte layout. -/
def Header.encode (h : Header) : Bytes :=
  u16le h.size ++ u16le (encWord2 h) ++ u32le h.source ++
  u64le h.target ++ List.replicate 6 0 ++ u8le (ackResByte h) ++
  u8le h.sequence ++ u64le 0 ++ u16le h.typ ++ u16le 0

/-- Header decode (header.rs Decodable impl): reads the 36-byte layout,
extracting the bit-packed sub-fields with the masks of the source. -/
def Header.decodeR : Rd Header := do
  let size ← readU16
  let w ← readU16
  let source ← readU32
  let target ← readU64
  let _ ← skipBytes 6
  let ar ← readU8
  let seq ← readU8
  let _ ← readU64
  let typ ← readU16
  let _ ← readU16
  pure { size := size
         origin := (w &&& 49152) >>> 14
         tagged := decide (0 < w &&& 8192)
         addressable := decide (0 < w &&& 4096)
         protocol := w &&& 4095
         source := source
         target := target
         ack_required := decide (0 < ar &&& 2)
         res_required := decide (0 < ar &&& 1)
         sequence := seq
         typ := typ }

/-- Message couples a Header to a Payload (message.rs). -/
structure Message where
  header : Header
  payload : Payload
deriving DecidableEq

def CLIENT_ID : Nat := 1111

/-- Message::new (message.rs): derives the header from the payload. -/
def Message.new (msg : Payload) (ack_required : Bool) (target : Nat)
    (seq : Nat) : Message :=
  { header := Header.new (msg.size + Header.mem_size) msg.tagged CLIENT_ID
      target ack_required msg.requires_response seq msg.typ
    payload := msg }

/-- Message Decodable impl (message.rs): decode the header, then decode the
payload under the type tag carried by the header. -/
def Message.decodeR : Rd Message := do
  let h ← Header.decodeR
  let p ← Payload.decode h.typ
  pure ⟨h, p⟩

/-- serialize::decode for Message: run the cursor decoder on the datagram
bytes and discard the cursor (serialize.rs decode). -/
def decodeMessage (bytes : Bytes) : Except String Message :=
  match Message.decodeR bytes with
  | .ok (m, _) => .ok m
  | .error e => .error e

/-- Modelled from the spec: Message::unpack consumes the message and yields
the payload together with the header target. The client in src calls unpack
but the method body is not among the source files; section 4.4 of the spec
gives its contract. -/
def Message.unpack (m : Message) : Payload × Nat := (m.payload, m.header.target)

/-- A discovered bulb (client.rs). The shared-socket handle carries no data
and is omitted; the address is an abstract Nat. -/
structure Bulb where
  label : Option Bytes
  location : Option Bytes
  ip : Nat
  port : Nat
  target : Nat
deriving DecidableEq

/-- The device directory: target id to Bulb. The HashMap is modelled by an
association list with first-match lookup. -/
abbrev Devices := List (Nat × Bulb)

def Devices.lookup : Devices → Nat → Option Bulb
  | [], _ => none
  | (k, b) :: t, target => if k = target then some b else Devices.lookup t target

/-- HashMap entry().or_insert: keeps an existing entry, inserts otherwise. -/
def Devices.insertIfAbsent (ds : Devices) (target : Nat) (b : Bulb) : Devices :=
  if (Devices.lookup ds target).isSome then ds else (target, b) :: ds

/-- The update_device_property macro of the listen loop: mutate the matching
bulb if the target is already registered, silently no-op otherwise. -/
def Devices.updateProp (ds : Devices) (target : Nat) (f : Bulb → Bulb) : Devices :=
  ds.map (fun kb => if kb.1 = target then (kb.1, f kb.2) else kb)

/-- One poll of the receive loop: either recv_from failed (timeout or
transient error) or a datagram of bytes arrived from a source address. -/
inductive RecvEvent
  | recvErr
  | datagram (src : Nat) (buf : Bytes)
deriving DecidableEq

/-- Outcome of one iteration of the listen loop body: the loop continues
with an updated directory, or the thread panics (the unwrap on a failed
decode). -/
inductive StepOutcome
  | next (devices : Devices)
  | panicked (msg : String)
deriving DecidableEq

/-- One iteration of the body of Client::listen (client.rs lines 191-254):
a recv error continues the loop; a received datagram is decoded with
serialize::decode followed by .unwrap(), so a decode failure panics the
thread; on success the directory is updated by payload kind. -/
def listenStep (devices : Devices) (ev : RecvEvent) : StepOutcome :=
  match ev with
  | .recvErr => .next devices
  | .datagram src buf =>
    match decodeMessage buf with
    | .error e => .panicked e
    | .ok resp =>
      let (payload, target) := resp.unpack
      match payload with
      | .Device (.StateService .Udp port) =>
          .next (devices.insertIfAbsent target
            { label := none, location := none, ip := src, port := port,
              target := target })
      | .Device (.StateLabel label) =>
          .next (devices.updateProp target (fun b => { b with label := some label }))
      | .Device (.StateLocation _ location _) =>
          .next (devices.updateProp target
            (fun b => { b with location := some location }))
      | _ => .next devices

/-! Reader-evaluation lemmas used by the round-trip proofs. -/

@[simp]
theorem Rd.pure_eval (a : α) (l : Bytes) : (pure a : Rd α) l = .ok (a, l) := rfl

theorem Rd.bind_eval_ok {m : Rd α} {l : Bytes} {a : α} {rest : Bytes}
    (h : m l = .ok (a, rest)) (f : α → Rd β) : (m >>= f) l = f a rest := by
  show Rd.bindImpl m f l = f a rest
  simp [Rd.bindImpl, h]

@[simp]
theorem Rd.bind_assoc (m : Rd α) (g : α → Rd β) (f : β → Rd γ) :
    ((m >>= g) >>= f) = m >>= fun a => (g a >>= f) := by
  funext l
  show Rd.bindImpl (Rd.bindImpl m g) f l = Rd.bindImpl m (fun a => Rd.bindImpl (g a) f) l
  unfold Rd.bindImpl
  rcases m l with e | p
  · simp
  · rcases p with ⟨a, rest⟩
    simp

@[simp]
theorem Rd.pure_bind (a : α) (f : α → Rd β) : ((pure a : Rd α) >>= f) = f a := by
  funext l
  show Rd.bindImpl (Rd.pureImpl a) f l = f a l
  simp [Rd.bindImpl, Rd.pureImpl]

theorem readN_exact (s r : Bytes) : readN s.length (s ++ r) = .ok (s, r) := by
  induction s with
  | nil => simp [readN]
  | cons b t ih => simp [readN, ih]

theorem readN_take (n : Nat) (l : Bytes) (h : n ≤ l.length) :
    readN n l = .ok (l.take n, l.drop n) := by
  induction n generalizing l with
  | zero => simp [readN]
  | succ m ih =>
    cases l with
    | nil => simp at h
    | cons b t =>
      simp only [readN, ih t (by simpa using h), List.take_succ_cons,
        List.drop_succ_cons]

theorem leVal_u16le (v : Nat) : leVal (u16le v) = v % 65536 := by
  simp [u16le, leVal]
  omega

theorem leVal_u32le (v : Nat) : leVal (u32le v) = v % 4294967296 := by
  simp [u32le, leVal]
  omega

theorem leVal_u64le (v : Nat) : leVal (u64le v) = v % 18446744073709551616 := by
  simp [u64le, leVal]
  omega

theorem readWidth_spec (n : Nat) (msg : String) (s r : Bytes)
    (h : s.length = n) : readWidth n msg (s ++ r) = .ok (leVal s, r) := by
  subst h
  unfold readWidth
  rw [readN_exact]

@[simp]
theorem bind_readU8 (f : Nat → Rd α) (b : Nat) (r : Bytes) :
    (readU8 >>= f) (b :: r) = f b r :=
  Rd.bind_eval_ok rfl f

@[simp]
theorem bind_readU8_u8le (f : Nat → Rd α) (v : Nat) (r : Bytes) (h : v < 256) :
    (readU8 >>= f) (u8le v ++ r) = f v r := by
  have hv : u8le v ++ r = v :: r := by simp [u8le, Nat.mod_eq_of_lt h]
  rw [hv, bind_readU8]

@[simp]
theorem bind_readU8_u8le_nil (f : Nat → Rd α) (v : Nat) (h : v < 256) :
    (readU8 >>= f) (u8le v) = f v [] := by
  have := bind_readU8_u8le f v [] h
  simpa using this

theorem readU16_spec (v : Nat) (r : Bytes) (h : v < 65536) :
    readU16 (u16le v ++ r) = .ok (v, r) := by
  rw [readU16, readWidth_spec 2 "read u16 failed" (u16le v) r rfl, leVal_u16le, Nat.mod_eq_of_lt h]

@[simp]
theorem bind_readU16 (f : Nat → Rd α) (v : Nat) (r : Bytes) (h : v < 65536) :
    (readU16 >>= f) (u16le v ++ r) = f v r :=
  Rd.bind_eval_ok (readU16_spec v r h) f

@[simp]
theorem bind_readU16_nil (f : Nat → Rd α) (v : Nat) (h : v < 65536) :
    (readU16 >>= f) (u16le v) = f v [] := by
  have := bind_readU16 f v [] h
  simpa using this

theorem readU32_spec (v : Nat) (r : Bytes) (h : v < 4294967296) :
    readU32 (u32le v ++ r) = .ok (v, r) := by
  rw [readU32, readWidth_spec 4 "read u32 failed" (u32le v) r rfl, leVal_u32le, Nat.mod_eq_of_lt h]

@[simp]
theorem bind_readU32 (f : Nat → Rd α) (v : Nat) (r : Bytes)
    (h : v < 4294967296) : (readU32 >>= f) (u32le v ++ r) = f v r :=
  Rd.bind_eval_ok (readU32_spec v r h) f

@[simp]
theorem bind_readU32_nil (f : Nat → Rd α) (v : Nat) (h : v < 4294967296) :
    (readU32 >>= f) (u32le v) = f v [] := by
  have := bind_readU32 f v [] h
  simpa using this

theorem readU64_spec (v : Nat) (r : Bytes) (h : v < 18446744073709551616) :
    readU64 (u64le v ++ r) = .ok (v, r) := by
  rw [readU64, readWidth_spec 8 "read u64 failed" (u64le v) r rfl, leVal_u64le, Nat.mod_eq_of_lt h]

@[simp]
theorem bind_readU64 (f : Nat → Rd α) (v : Nat) (r : Bytes)
    (h : v < 18446744073709551616) : (readU64 >>= f) (u64le v ++ r) = f v r :=
  Rd.bind_eval_ok (readU64_spec v r h) f

@[simp]
theorem bind_readU64_nil (f : Nat → Rd α) (v : Nat)
    (h : v < 18446744073709551616) : (readU64 >>= f) (u64le v) = f v [] := by
  have := bind_readU64 f v [] h
  simpa using this

theorem readI16_spec (v : Nat) (r : Bytes) (h : v < 65536) :
    readI16 (u16le v ++ r) = .ok (v, r) := by
  rw [readI16, readWidth_spec 2 "read i16 failed" (u16le v) r rfl, leVal_u16le, Nat.mod_eq_of_lt h]

@[simp]
theorem bind_readI16 (f : Nat → Rd α) (v : Nat) (r : Bytes) (h : v < 65536) :
    (readI16 >>= f) (u16le v ++ r) = f v r :=
  Rd.bind_eval_ok (readI16_spec v r h) f

theorem readF32_spec (v : Nat) (r : Bytes) (h : v < 4294967296) :
    readF32 (u32le v ++ r) = .ok (v, r) := by
  rw [readF32, readWidth_spec 4 "read f32 failed" (u32le v) r rfl, leVal_u32le, Nat.mod_eq_of_lt h]

@[simp]
theorem bind_readF32 (f : Nat → Rd α) (v : Nat) (r : Bytes)
    (h : v < 4294967296) : (readF32 >>= f) (u32le v ++ r) = f v r :=
  Rd.bind_eval_ok (readF32_spec v r h) f

theorem str32Aux_spec (s : Bytes) :
    ∀ (n : Nat) (r : Bytes), s.length < n → (∀ b ∈ s, b ≠ 0) →
      str32Aux n (s ++ 0 :: r) = .ok (s, r) := by
  induction s with
  | nil =>
    intro n r hlt _
    obtain ⟨m, rfl⟩ : ∃ m, n = m + 1 := ⟨n - 1, by omega⟩
    simp [str32Aux]
  | cons b t ih =>
    intro n r hlt hz
    obtain ⟨m, rfl⟩ : ∃ m, n = m + 1 := ⟨n - 1, by omega⟩
    have hb : ¬(b = 0) := hz b (by simp)
    have hrec := ih m r (by simpa using hlt) (fun x hx => hz x (by simp [hx]))
    simp only [List.cons_append, str32Aux, if_neg hb, List.append_eq, hrec]

def labelOk (l : Bytes) : Prop := l.length ≤ 31 ∧ ∀ b ∈ l, b ≠ 0

instance (l : Bytes) : Decidable (labelOk l) := by
  unfold labelOk
  infer_instance

theorem readStr32_spec (s r : Bytes) (h : labelOk s) :
    readStr32 (s ++ 0 :: r) = .ok (s, r) :=
  str32Aux_spec s 32 r (by have := h.1; omega) h.2

@[simp]
theorem bind_readStr32 (f : Bytes → Rd α) (s r : Bytes) (h : labelOk s) :
    (readStr32 >>= f) (s ++ 0 :: r) = f s r :=
  Rd.bind_eval_ok (readStr32_spec s r h) f

theorem read16Arr_spec (s r : Bytes) (h : s.length = 16) :
    read16Arr (s ++ r) = .ok (s, r) := by
  show readN 16 (s ++ r) = .ok (s, r)
  rw [← h, readN_exact]

@[simp]
theorem bind_read16Arr (f : Bytes → Rd α) (s r : Bytes) (h : s.length = 16) :
    (read16Arr >>= f) (s ++ r) = f s r :=
  Rd.bind_eval_ok (read16Arr_spec s r h) f

theorem read64Arr_spec (s r : Bytes) (h : s.length = 64) :
    read64Arr (s ++ r) = .ok (s, r) := by
  show readN 64 (s ++ r) = .ok (s, r)
  rw [← h, readN_exact]

@[simp]
theorem bind_read64Arr (f : Bytes → Rd α) (s r : Bytes) (h : s.length = 64) :
    (read64Arr >>= f) (s ++ r) = f s r :=
  Rd.bind_eval_ok (read64Arr_spec s r h) f

@[simp]
theorem bind_read64Arr_nil (f : Bytes → Rd α) (s : Bytes) (h : s.length = 64) :
    (read64Arr >>= f) s = f s [] := by
  have := bind_read64Arr f s [] h
  simpa using this

theorem skipBytes_spec (n : Nat) (s r : Bytes) (h : s.length = n) :
    skipBytes n (s ++ r) = .ok ((), r) := by
  unfold skipBytes
  rw [← h, readN_exact]

@[simp]
theorem bind_skipBytes (n : Nat) (f : Unit → Rd α) (s r : Bytes)
    (h : s.length = n) : (skipBytes n >>= f) (s ++ r) = f () r :=
  Rd.bind_eval_ok (skipBytes_spec n s r h) f

@[simp]
theorem Service.fromU8_toU8 (s : Service) : Service.fromU8 s.toU8 = s := by
  cases s <;> rfl

@[simp]
theorem Service.toU8_lt (s : Service) : s.toU8 < 256 := by
  cases s <;> decide

@[simp]
theorem Power.fromU16_toU16 (p : Power) : Power.fromU16 p.toU16 = p := by
  cases p <;> rfl

@[simp]
theorem Power.toU16_lt (p : Power) : p.toU16 < 65536 := by
  cases p <;> decide

/-- All four HSBK fields fit in a u16. -/
def hsbkOk (c : HSBK) : Prop :=
  c.hue < 65536 ∧ c.saturation < 65536 ∧ c.brightness < 65536 ∧ c.kelvin < 65536

/-- Well-formedness of a Payload value: every numeric field fits the Rust
integer width of its struct field, fixed-size arrays have their fixed
length, and every label is at most 31 bytes with no embedded zero byte
(the terminator-based string codec cannot represent anything else). -/
def Payload.wf : Payload → Prop
  | .Device d =>
    match d with
    | .StateService _ port => port < 4294967296
    | .StateHostInfo signal tx rx =>
        signal < 4294967296 ∧ tx < 4294967296 ∧ rx < 4294967296
    | .StateHostFirmware build version =>
        build < 18446744073709551616 ∧ version < 4294967296
    | .StateWifiInfo signal tx rx =>
        signal < 4294967296 ∧ tx < 4294967296 ∧ rx < 4294967296
    | .StateWifiFirmware build version =>
        build < 18446744073709551616 ∧ version < 4294967296
    | .StateLabel label => labelOk label
    | .StateVersion vendor product version =>
        vendor < 4294967296 ∧ product < 4294967296 ∧ version < 4294967296
    | .StateInfo time uptime downtime =>
        time < 18446744073709551616 ∧ uptime < 18446744073709551616 ∧
          downtime < 18446744073709551616
    | .StateLocation location label updated =>
        location.length = 16 ∧ labelOk label ∧ updated < 18446744073709551616
    | .StateGroup group label updated =>
        group.length = 16 ∧ labelOk label ∧ updated < 18446744073709551616
    | .EchoRequest d => d.length = 64
    | .EchoResponse d => d.length = 64
    | _ => True
  | .Light l =>
    match l with
    | .SetColor color duration => hsbkOk color ∧ duration < 4294967296
    | .State color power label => hsbkOk color ∧ power < 65536 ∧ labelOk label
    | .SetPower _ duration => duration < 4294967296
    | _ => True

/-- The four variants whose decoder consumes reserved bytes that the
encoder never emits (tags 13, 15, 17, 19). -/
def Payload.reservedMisdecode : Payload → Bool
  | .Device (.StateHostInfo _ _ _) => true
  | .Device (.StateHostFirmware _ _) => true
  | .Device (.StateWifiInfo _ _ _) => true
  | .Device (.StateWifiFirmware _ _) => true
  | _ => false

/-- C2 counterexample: the claimed round trip fails on the code for
StateHostInfo (tag 13): its decoder reads a reserved i16 that the encoder
never writes, so decoding the encoded bytes of the payload under its own
type tag returns an error instead of the payload. -/
theorem c2_roundtrip_counterexample :
    Payload.decode (Payload.typ (.Device (.StateHostInfo 0 0 0)))
        (encodePayload (.Device (.StateHostInfo 0 0 0))) =
      .error "read i16 failed" := by
  rfl

/-- C2 amended: for every Payload variant with both encode and decode
defined, other than StateHostInfo, StateHostFirmware, StateWifiInfo and
StateWifiFirmware (whose decoders consume reserved bytes the encoders never
emit, so the round trip always fails there), and for well-formed field
values (integers within their Rust widths, arrays of their fixed length,
labels of at most 31 bytes with no zero byte), decoding the encoded bytes
of p under the type tag of p yields exactly p. -/
theorem c2_payload_roundtrip_amended (p : Payload) (hwf : p.wf)
    (hres : p.reservedMisdecode = false) :
    Payload.decode p.typ (encodePayload p) = .ok (p, []) := by
  cases p with
  | Device d =>
    cases d with
    | GetService =>
      simp [Payload.typ, Device.typ, encodePayload, encodeDevice, Payload.decode]
    | StateService s port =>
      simp only [Payload.wf] at hwf
      simp [Payload.typ, Device.typ, encodePayload, encodeDevice,
        Payload.decode, hwf]
    | GetHostInfo =>
      simp [Payload.typ, Device.typ, encodePayload, encodeDevice, Payload.decode]
    | StateHostInfo signal tx rx =>
      simp [Payload.reservedMisdecode] at hres
    | GetHostFirmware =>
      simp [Payload.typ, Device.typ, encodePayload, encodeDevice, Payload.decode]
    | StateHostFirmware build version =>
      simp [Payload.reservedMisdecode] at hres
    | GetWifiInfo =>
      simp [Payload.typ, Device.typ, encodePayload, encodeDevice, Payload.decode]
    | StateWifiInfo signal tx rx =>
      simp [Payload.reservedMisdecode] at hres
    | GetWifiFirmware =>
      simp [Payload.typ, Device.typ, encodePayload, encodeDevice, Payload.decode]
    | StateWifiFirmware build version =>
      simp [Payload.reservedMisdecode] at hres
    | GetPower =>
      simp [Payload.typ, Device.typ, encodePayload, encodeDevice, Payload.decode]
    | SetPower level =>
      simp [Payload.typ, Device.typ, encodePayload, encodeDevice, Payload.decode]
    | StatePower level =>
      simp [Payload.typ, Device.typ, encodePayload, encodeDevice, Payload.decode]
    | GetLabel =>
      simp [Payload.typ, Device.typ, encodePayload, encodeDevice, Payload.decode]
    | StateLabel label =>
      simp only [Payload.wf] at hwf
      simp [Payload.typ, Device.typ, encodePayload, encodeDevice,
        Payload.decode, hwf]
    | GetVersion =>
      simp [Payload.typ, Device.typ, encodePayload, encodeDevice, Payload.decode]
    | StateVersion vendor product version =>
      simp only [Payload.wf] at hwf
      obtain ⟨h1, h2, h3⟩ := hwf
      simp [Payload.typ, Device.typ, encodePayload, encodeDevice,
        Payload.decode, h1, h2, h3]
    | GetInfo =>
      simp [Payload.typ, Device.typ, encodePayload, encodeDevice, Payload.decode]
    | StateInfo time uptime downtime =>
      simp only [Payload.wf] at hwf
      obtain ⟨h1, h2, h3⟩ := hwf
      simp [Payload.typ, Device.typ, encodePayload, encodeDevice,
        Payload.decode, h1, h2, h3]
    | Acknowledgement =>
      simp [Payload.typ, Device.typ, encodePayload, encodeDevice, Payload.decode]
    | GetLocation =>
      simp [Payload.typ, Device.typ, encodePayload, encodeDevice, Payload.decode]
    | StateLocation location label updated =>
      simp only [Payload.wf] at hwf
      obtain ⟨h1, h2, h3⟩ := hwf
      simp [Payload.typ, Device.typ, encodePayload, encodeDevice,
        Payload.decode, h1, h2, h3]
    | GetGroup =>
      simp [Payload.typ, Device.typ, encodePayload, encodeDevice, Payload.decode]
    | StateGroup group label updated =>
      simp only [Payload.wf] at hwf
      obtain ⟨h1, h2, h3⟩ := hwf
      simp [Payload.typ, Device.typ, encodePayload, encodeDevice,
        Payload.decode, h1, h2, h3]
    | EchoRequest d =>
      simp only [Payload.wf] at hwf
      simp [Payload.typ, Device.typ, encodePayload, encodeDevice,
        Payload.decode, hwf]
    | EchoResponse d =>
      simp only [Payload.wf] at hwf
      simp [Payload.typ, Device.typ, encodePayload, encodeDevice,
        Payload.decode, hwf]
  | Light l =>
    cases l with
    | Get =>
      simp [Payload.typ, Light.typ, encodePayload, encodeLight, Payload.decode]
    | SetColor color duration =>
      simp only [Payload.wf] at hwf
      obtain ⟨hc, hd⟩ := hwf
      obtain ⟨hu, sa, br, ke⟩ := color
      simp only [hsbkOk] at hc
      obtain ⟨hc1, hc2, hc3, hc4⟩ := hc
      simp [Payload.typ, Light.typ, encodePayload, encodeLight,
        Payload.decode, hsbkle, HSBK.decodeR, hc1, hc2, hc3, hc4, hd]
    | State color power label =>
      simp only [Payload.wf] at hwf
      obtain ⟨hc, hp, hl⟩ := hwf
      obtain ⟨hu, sa, br, ke⟩ := color
      simp only [hsbkOk] at hc
      obtain ⟨hc1, hc2, hc3, hc4⟩ := hc
      simp [Payload.typ, Light.typ, encodePayload, encodeLight,
        Payload.decode, hsbkle, HSBK.decodeR, hc1, hc2, hc3, hc4, hp, hl]
    | GetPower =>
      simp [Payload.typ, Light.typ, encodePayload, encodeLight, Payload.decode]
    | SetPower level duration =>
      simp only [Payload.wf] at hwf
      simp [Payload.typ, Light.typ, encodePayload, encodeLight,
        Payload.decode, hwf]
    | StatePower level =>
      simp [Payload.typ, Light.typ, encodePayload, encodeLight, Payload.decode]

/-- C2 witness: the amended round trip applied to a concrete well-formed
StateLocation payload. -/
theorem c2_payload_roundtrip_witness :
    Payload.decode
        (Payload.typ (.Device (.StateLocation (List.replicate 16 7) [72, 105] 42)))
        (encodePayload (.Device (.StateLocation (List.replicate 16 7) [72, 105] 42))) =
      .ok (.Device (.StateLocation (List.replicate 16 7) [72, 105] 42), []) :=
  c2_payload_roundtrip_amended
    (.Device (.StateLocation (List.replicate 16 7) [72, 105] 42))
    (by constructor
        · decide
        · constructor
          · constructor
            · decide
            · decide
          · decide)
    (by decide)

instance {ε α : Type} [DecidableEq ε] [DecidableEq α] : DecidableEq (Except ε α) :=
  fun a b =>
    match a, b with
    | .ok x, .ok y =>
      if h : x = y then .isTrue (by rw [h]) else .isFalse (by simp [h])
    | .error x, .error y =>
      if h : x = y then .isTrue (by rw [h]) else .isFalse (by simp [h])
    | .ok _, .error _ => .isFalse (by simp)
    | .error _, .ok _ => .isFalse (by simp)

/-- C1: the listen loop swallows recv errors and continues, but the unwrap
at client.rs line 196 panics the receive thread as soon as an inbound
datagram fails to decode as a Message; here the empty datagram already
fails the first header read and panics the loop, contradicting the
logged-and-ignored behavior the specification requires. -/
theorem c1_listen_decode_failure_panics :
    listenStep [] (.datagram 0 []) = .panicked "read u16 failed" ∧
    (∀ ds : Devices, listenStep ds .recvErr = .next ds) :=
  ⟨rfl, fun _ => rfl⟩

/-- C3 counterexample: the Set-style variants Device::SetPower,
Light::SetPower and Light::SetColor all have requires_response true,
refuting the claim that every Set-style variant returns false. -/
theorem c3_requires_response_counterexample :
    Payload.requires_response (.Device (.SetPower .Standby)) = true ∧
    Payload.requires_response (.Light (.SetPower .Standby 0)) = true ∧
    Payload.requires_response (.Light (.SetColor ⟨0, 0, 0, 3500⟩ 0)) = true := by
  decide

/-- C3 amended: requires_response is a pure function of the variant; it is
true exactly for the Get-style variants together with Device::SetPower,
Light::SetPower, Light::SetColor and EchoRequest, and false for every
State-style variant, Acknowledgement and EchoResponse; equivalently, true
exactly on the listed type codes. -/
theorem c3_requires_response_amended (p : Payload) :
    p.requires_response =
      decide (p.typ ∈ [2, 12, 14, 16, 18, 20, 21, 23, 32, 34, 48, 51, 58,
        101, 102, 116, 117]) := by
  cases p with
  | Device d => cases d <;> rfl
  | Light l => cases l <;> rfl

/-- C4 counterexample: Color::to_hsbk is a construction path of the library
that yields an HSBK whose kelvin is 0, violating the claimed invariant
2500 <= kelvin <= 9000. -/
theorem c4_kelvin_invariant_counterexample :
    (Color.to_hsbk .Blue 100).kelvin = 0 ∧
    ¬ 2500 ≤ (Color.to_hsbk .Blue 100).kelvin := by
  decide

/-- C4 amended: only HSBK::new enforces 2500 <= kelvin <= 9000 (rejecting
construction otherwise); Color::to_hsbk yields kelvin 0 for Blue (and
Violet, Yellow, White) and 3500 for Red, and the decode path performs no
validation, accepting a kelvin of 0 straight from the wire bytes. -/
theorem c4_kelvin_invariant_amended (h s b k br : Nat) :
    ((HSBK.new h s b k).isSome = (decide (2500 ≤ k) && decide (k ≤ 9000))) ∧
    (Color.to_hsbk .Blue br).kelvin = 0 ∧
    (Color.to_hsbk .Red br).kelvin = 3500 ∧
    Payload.decode 102 (u8le 0 ++ hsbkle ⟨1, 2, 3, 0⟩ ++ u32le 5) =
      .ok (.Light (.SetColor ⟨1, 2, 3, 0⟩ 5), []) := by
  refine ⟨?_, rfl, rfl, by rfl⟩
  by_cases h1 : 2500 ≤ k <;> by_cases h2 : k ≤ 9000 <;>
    simp [HSBK.new, h1, h2]

/-- C7: every type tag outside the known catalog makes Payload::decode
return the unrecognized-message error, for every input byte list; the
decoder is total, so it can neither panic nor produce a fallback variant. -/
theorem c7_unknown_tag_errors (tag : Nat) (h : tag ∉ knownTags)
    (bytes : Bytes) :
    Payload.decode tag bytes = .error "unrecognized message" := by
  simp only [knownTags, List.mem_cons, List.mem_singleton, not_or] at h
  obtain ⟨h2, h3, h12, h13, h14, h15, h16, h17, h18, h19, h20, h21, h22,
    h23, h25, h32, h33, h34, h35, h45, h48, h50, h51, h53, h58, h59,
    h101, h102, h107, h116, h117, h118⟩ := h
  simp [Payload.decode, h2, h3, h12, h13, h14, h15, h16, h17, h18, h19,
    h20, h21, h22, h23, h25, h32, h33, h34, h35, h45, h48, h50, h51, h53,
    h58, h59, h101, h102, h107, h116, h117, h118]

/-- C7 witness: tag 9999 is outside the catalog and fails with the
unrecognized-message error. -/
theorem c7_unknown_tag_errors_witness :
    9999 ∉ knownTags ∧
    Payload.decode 9999 [] = .error "unrecognized message" :=
  ⟨by decide, c7_unknown_tag_errors 9999 (by decide) []⟩

/-- C9: Message::new derives its header from the payload: size is the
payload size plus the 36-byte header length, and type, tagged and
res_required come from the payload dispatch functions. -/
theorem c9_message_new_header (p : Payload) (ack : Bool) (target seq : Nat) :
    (Message.new p ack target seq).header.size = p.size + 36 ∧
    (Message.new p ack target seq).header.typ = p.typ ∧
    (Message.new p ack target seq).header.tagged = p.tagged ∧
    (Message.new p ack target seq).header.res_required = p.requires_response :=
  ⟨rfl, rfl, rfl, rfl⟩

/-! Bit-level facts about the packed header words. -/

@[simp]
theorem lor_8192_4096 : (8192 : Nat) ||| 4096 = 12288 := rfl

@[simp]
theorem lor_2_1 : (2 : Nat) ||| 1 = 3 := rfl

@[simp]
theorem and_0_2 : (0 : Nat) &&& 2 = 0 := rfl

@[simp]
theorem and_1_2 : (1 : Nat) &&& 2 = 0 := rfl

@[simp]
theorem and_2_2 : (2 : Nat) &&& 2 = 2 := rfl

@[simp]
theorem and_3_2 : (3 : Nat) &&& 2 = 2 := rfl

@[simp]
theorem and_0_1 : (0 : Nat) &&& 1 = 0 := rfl

@[simp]
theorem and_1_1 : (1 : Nat) &&& 1 = 1 := rfl

@[simp]
theorem and_2_1 : (2 : Nat) &&& 1 = 0 := rfl

@[simp]
theorem and_3_1 : (3 : Nat) &&& 1 = 1 := rfl

theorem and_two_pow_arith (x i : Nat) : x &&& 2 ^ i = x / 2 ^ i % 2 * 2 ^ i := by
  rw [Nat.and_two_pow, Nat.toNat_testBit]

/-- Decomposition of the packed origin/tagged/addressable/protocol word: for
a 12-bit protocol value p and a flag contribution c that is a multiple of
4096 below 16384, the OR is a plain sum and the decode-side masks recover
the packed pieces. -/
theorem word_facts (p c : Nat) (hp : p < 4096) (hc : c % 4096 = 0)
    (hc2 : c < 16384) :
    p ||| c = c + p ∧ c + p < 65536 ∧ ((c + p) &&& 49152) >>> 14 = 0 ∧
    (c + p) &&& 8192 = c / 8192 % 2 * 8192 ∧
    (c + p) &&& 4096 = c / 4096 % 2 * 4096 ∧
    (c + p) &&& 4095 = p := by
  have e1 : p ||| c = c + p := by
    obtain ⟨a, rfl⟩ : ∃ a, c = 4096 * a := ⟨c / 4096, by omega⟩
    have hb : p < 2 ^ 12 := by simpa using hp
    have key := Nat.mul_add_lt_is_or hb a
    norm_num at key
    rw [Nat.or_comm]
    exact key.symm
  have H12 := and_two_pow_arith (c + p) 12
  have H13 := and_two_pow_arith (c + p) 13
  have H14 := and_two_pow_arith (c + p) 14
  have H15 := and_two_pow_arith (c + p) 15
  norm_num at H12 H13 H14 H15
  refine ⟨e1, by omega, ?_, ?_, ?_, ?_⟩
  · rw [show (49152 : Nat) = 16384 ||| 32768 from rfl,
      Nat.and_or_distrib_left, H14, H15]
    have d14 : (c + p) / 16384 = 0 := by omega
    have d15 : (c + p) / 32768 = 0 := by omega
    rw [d14, d15]
    rfl
  · rw [H13]
    omega
  · rw [H12]
    omega
  · have H := Nat.and_pow_two_sub_one_eq_mod (c + p) 12
    norm_num at H
    rw [H]
    omega

@[simp]
theorem bind_skipBytes6_cons (f : Unit → Rd α) (a b c d e g : Nat)
    (r : Bytes) :
    (skipBytes 6 >>= f) (a :: b :: c :: d :: e :: g :: r) = f () r :=
  Rd.bind_eval_ok rfl f

set_option maxHeartbeats 2000000 in
/-- Header round trip for every header whose origin is 0 and whose fields
fit their Rust widths; this covers every header the program can build
except those a decode produced from wire bytes with bits 14 or 15 set. -/
theorem header_roundtrip_aux (size proto src tgt sq ty : Nat)
    (tg ad ak rs : Bool) (hp : proto < 4096) (hs : size < 65536)
    (hsrc : src < 4294967296) (ht : tgt < 18446744073709551616)
    (hq : sq < 256) (hty : ty < 65536) :
    Header.decodeR (Header.encode
        ⟨size, 0, tg, ad, proto, src, tgt, ak, rs, sq, ty⟩) =
      .ok ((⟨size, 0, tg, ad, proto, src, tgt, ak, rs, sq, ty⟩ : Header), []) := by
  have A := word_facts proto 12288 hp (by norm_num) (by norm_num)
  have B := word_facts proto 8192 hp (by norm_num) (by norm_num)
  have C := word_facts proto 4096 hp (by norm_num) (by norm_num)
  have D := word_facts proto 0 hp (by norm_num) (by norm_num)
  norm_num at A B C D
  obtain ⟨A1, A2, A3, A4, A5, A6⟩ := A
  obtain ⟨B1, B2, B3, B4, B5, B6⟩ := B
  obtain ⟨C1, C2, C3, C4, C5, C6⟩ := C
  obtain ⟨D1, D2, D3, D4⟩ := D
  cases tg <;> cases ad <;> cases ak <;> cases rs <;>
    simp [Header.encode, Header.decodeR, encWord2, ackResByte,
      A1, A2, A3, A4, A5, A6, B1, B2, B3, B4, B5, B6,
      C1, C2, C3, C4, C5, C6, D1, D2, D3, D4,
      hp, hs, hsrc, ht, hq, hty]

/-- C5: for every header built through Header::new (origin 0, addressable
true, protocol 1024) with arguments fitting their Rust widths, decoding the
36 encoded bytes yields the header back with no bytes left over. -/
theorem c5_header_new_roundtrip (size : Nat) (tagged : Bool)
    (source target : Nat) (ack res : Bool) (seq typ : Nat)
    (hs : size < 65536) (hsrc : source < 4294967296)
    (ht : target < 18446744073709551616) (hq : seq < 256)
    (hty : typ < 65536) :
    Header.decodeR (Header.encode
        (Header.new size tagged source target ack res seq typ)) =
      .ok (Header.new size tagged source target ack res seq typ, []) :=
  header_roundtrip_aux size 1024 source target seq typ tagged true ack res
    (by norm_num) hs hsrc ht hq hty

/-- C5 witness: the round trip at the golden-test header. -/
theorem c5_header_new_roundtrip_witness :
    Header.decodeR (Header.encode
        (Header.new 36 true 2838935849 0 false true 0 2)) =
      .ok (Header.new 36 true 2838935849 0 false true 0 2, []) :=
  c5_header_new_roundtrip 36 true 2838935849 0 false true 0 2
    (by norm_num) (by norm_num) (by norm_num) (by norm_num) (by norm_num)

/-- C6 counterexample: a header with origin 1 is reachable (decode produces
it from wire bytes whose word at offset 2 is 0x5400), but encoding it ORs
origin into the low bits instead of bits 14-15, so decoding its encoding
returns origin 0 and a corrupted protocol 1025: the round trip fails for
origin not equal to 0. -/
theorem c6_origin_roundtrip_counterexample :
    Header.decodeR (u16le 36 ++ u16le 21504 ++ u32le 0 ++ u64le 0 ++
        List.replicate 6 0 ++ u8le 0 ++ u8le 0 ++ u64le 0 ++
        u16le 2 ++ u16le 0) =
      .ok ((⟨36, 1, false, true, 1024, 0, 0, false, false, 0, 2⟩ : Header), []) ∧
    Header.decodeR (Header.encode
        (⟨36, 1, false, true, 1024, 0, 0, false, false, 0, 2⟩ : Header)) =
      .ok ((⟨36, 0, false, true, 1025, 0, 0, false, false, 0, 2⟩ : Header), []) ∧
    (⟨36, 0, false, true, 1025, 0, 0, false, false, 0, 2⟩ : Header) ≠
      (⟨36, 1, false, true, 1024, 0, 0, false, false, 0, 2⟩ : Header) := by
  refine ⟨by rfl, by rfl, by decide⟩

/-- C6 amended: header decode inverts encode over the packed word at offset
2 exactly when origin is 0: the encoder ORs origin into the low protocol
bits without shifting it to bits 14-15, so origin is lost (and protocol
corrupted) whenever it is nonzero; for every decode-reachable header with
origin 0, a 12-bit protocol, and fields within their Rust widths, the round
trip holds. -/
theorem c6_header_roundtrip_amended (h : Header) (ho : h.origin = 0)
    (hp : h.protocol < 4096) (hs : h.size < 65536)
    (hsrc : h.source < 4294967296) (ht : h.target < 18446744073709551616)
    (hq : h.sequence < 256) (hty : h.typ < 65536) :
    Header.decodeR (Header.encode h) = .ok (h, []) := by
  obtain ⟨size, origin, tg, ad, proto, src, tgt, ak, rs, sq, ty⟩ := h
  have ho2 : origin = 0 := ho
  subst ho2
  exact header_roundtrip_aux size proto src tgt sq ty tg ad ak rs hp hs hsrc ht hq hty

/-- C6 amended witness: the round trip at a concrete origin-0 header with a
non-default protocol value. -/
theorem c6_header_roundtrip_amended_witness :
    Header.decodeR (Header.encode
        (⟨36, 0, false, true, 1025, 7, 9, true, false, 3, 2⟩ : Header)) =
      .ok ((⟨36, 0, false, true, 1025, 7, 9, true, false, 3, 2⟩ : Header), []) :=
  c6_header_roundtrip_amended
    ⟨36, 0, false, true, 1025, 7, 9, true, false, 3, 2⟩
    rfl (by decide) (by decide) (by decide) (by decide) (by decide) (by decide)

/-- C8 counterexample: in the golden encoding the 16-bit field at byte
offset 2 is 0x3400 (the bytes 0x00, 0x34), not the 0x3424 the claim
states; 0x3424 is not the OR of 1024, 0x2000 and 0x1000 either. -/
theorem c8_word_counterexample :
    leVal (((Header.encode
        (Header.new 36 true 2838935849 0 false true 0 2)).drop 2).take 2) =
      0x3400 ∧
    (0x3400 : Nat) ≠ 0x3424 ∧
    (1024 : Nat) ||| 8192 ||| 4096 ≠ 0x3424 := by
  refine ⟨by rfl, by decide, by decide⟩

/-- C8 amended: Header::new(36, true, 2838935849, 0, false, true, 0, 2)
encodes to exactly the known-good 36-byte sequence of the source test, and
the 16-bit field at byte offset 2 encodes as 1024 OR 0x2000 OR 0x1000 =
0x3400 (wire bytes 0x00, 0x34). -/
theorem c8_golden_encode_amended :
    Header.encode (Header.new 36 true 2838935849 0 false true 0 2) =
      [0x24, 0x00, 0x00, 0x34, 0x29, 0xb9, 0x36, 0xa9,
       0x00, 0x00, 0x00, 0x00, 0x00, 0x00, 0x00, 0x00,
       0x00, 0x00, 0x00, 0x00, 0x00, 0x00, 0x01, 0x00,
       0x00, 0x00, 0x00, 0x00, 0x00, 0x00, 0x00, 0x00,
       0x02, 0x00, 0x00, 0x00] ∧
    (1024 : Nat) ||| 8192 ||| 4096 = 0x3400 ∧
    leVal (((Header.encode
        (Header.new 36 true 2838935849 0 false true 0 2)).drop 2).take 2) =
      0x3400 := by
  refine ⟨by rfl, by rfl, by rfl⟩

theorem leVal_replicate_zero (n : Nat) : leVal (List.replicate n 0) = 0 := by
  induction n with
  | zero => rfl
  | succ m ih => simp [List.replicate_succ, leVal, ih]

theorem readU64_take (l : Bytes) (h : 8 ≤ l.length) :
    readU64 l = .ok (leVal (l.take 8), l.drop 8) := by
  show readWidth 8 "read u64 failed" l = _
  unfold readWidth
  rw [readN_take 8 l h]

/-- C10: decode_32_byte_str stops at the first zero byte and consumes only
length-plus-one bytes, so on a fixed-width 56-byte StateLocation or
StateGroup datagram whose 32-byte label field is zero-padded around a label
shorter than 31 bytes, the updated_at u64 is read starting inside the
padding of the label field (payload offset 17 plus the label length)
instead of at payload offset 48; when the label is at most 23 bytes the
whole u64 is read from padding and decodes as 0 regardless of the actual
updated_at bytes. -/
theorem c10_label_padding_misread (loc lab : Bytes) (upd : Nat) (r : Bytes)
    (h16 : loc.length = 16) (hlen : lab.length < 31)
    (hz : ∀ b ∈ lab, b ≠ 0) :
    readStr32 (lab ++ 0 :: r) = .ok (lab, r) ∧
    Payload.decode 50
        (loc ++ (lab ++ List.replicate (32 - lab.length) 0) ++ u64le upd) =
      .ok (.Device (.StateLocation loc lab
            (leVal ((List.replicate (31 - lab.length) 0 ++ u64le upd).take 8))),
          (List.replicate (31 - lab.length) 0 ++ u64le upd).drop 8) ∧
    Payload.decode 53
        (loc ++ (lab ++ List.replicate (32 - lab.length) 0) ++ u64le upd) =
      .ok (.Device (.StateGroup loc lab
            (leVal ((List.replicate (31 - lab.length) 0 ++ u64le upd).take 8))),
          (List.replicate (31 - lab.length) 0 ++ u64le upd).drop 8) ∧
    (lab.length ≤ 23 →
      leVal ((List.replicate (31 - lab.length) 0 ++ u64le upd).take 8) = 0) := by
  have hl : labelOk lab := ⟨by omega, hz⟩
  have hwire : loc ++ (lab ++ List.replicate (32 - lab.length) 0) ++ u64le upd =
      loc ++ (lab ++ 0 :: (List.replicate (31 - lab.length) 0 ++ u64le upd)) := by
    have h32 : 32 - lab.length = (31 - lab.length) + 1 := by omega
    rw [h32, List.replicate_succ]
    simp
  have hlen8 : 8 ≤ (List.replicate (31 - lab.length) 0 ++ u64le upd).length := by
    simp [u64le]
  refine ⟨readStr32_spec lab r hl, ?_, ?_, ?_⟩
  · rw [hwire]
    simp [Payload.decode, h16, hl]
    rw [Rd.bind_eval_ok (readU64_take _ hlen8)]
    simp
  · rw [hwire]
    simp [Payload.decode, h16, hl]
    rw [Rd.bind_eval_ok (readU64_take _ hlen8)]
    simp
  · intro h23
    have htake : (List.replicate (31 - lab.length) 0 ++ u64le upd).take 8 =
        List.replicate 8 0 := by
      rw [List.take_append_of_le_length (by simp; omega), List.take_replicate]
      congr 1
      omega
    rw [htake, leVal_replicate_zero]

/-- C10 witness: a 56-byte StateLocation datagram with the one-byte label
65 and updated_at 999 decodes with the updated field read from the padding
(value 0, not 999). -/
theorem c10_label_padding_misread_witness :
    Payload.decode 50
        (List.replicate 16 1 ++ ([65] ++ List.replicate (32 - [65].length) 0) ++
          u64le 999) =
      .ok (.Device (.StateLocation (List.replicate 16 1) [65]
            (leVal ((List.replicate (31 - [65].length) 0 ++ u64le 999).take 8))),
          (List.replicate (31 - [65].length) 0 ++ u64le 999).drop 8) ∧
    leVal ((List.replicate (31 - [65].length) 0 ++ u64le 999).take 8) = 0 :=
  ⟨(c10_label_padding_misread (List.replicate 16 1) [65] 999 []
      (by decide) (by decide) (by decide)).2.1,
   (c10_label_padding_misread (List.replicate 16 1) [65] 999 []
      (by decide) (by decide) (by decide)).2.2.2 (by decide)⟩

end Lifx
